import Mathlib

/-!
# Verification of the affiliate-link store (src/index.ts)

A shallow embedding of the SQLite-backed affiliate-link store exposed by
the MCP server in `src/index.ts`, together with theorems settling the
specification claims.

Modelling conventions:
* Each SQLite table is a `List` of row structures; the database file is a
  `DB` record of the three tables.  Rows are appended in insertion order.
* SQL `TEXT` columns are `String`, nullable columns are `Option _`,
  `REAL` columns are `Rat` (exact rationals in place of IEEE doubles;
  no claim depends on floating-point rounding), `INTEGER` counters are `Int`.
* The `tags` TEXT column stores `JSON.stringify(tags)`; since `JSON.parse`
  inverts `JSON.stringify` on arrays of strings, the column content is
  modelled by the string list it deserializes to (`none` for SQL NULL).
* Ids and timestamps are produced by `generateId()` / `new Date()` at run
  time; the embedding takes them as explicit parameters.
* `better-sqlite3` runs each `stmt.run` as its own autocommit transaction;
  the code never wraps statements in `db.transaction`.  Each single
  statement is therefore modelled as one atomic step, and the handlers as
  the sequential composition of those steps.
* The schema declares `FOREIGN KEY` clauses but the code never issues
  `PRAGMA foreign_keys = ON`, so SQLite does not enforce them; inserts into
  the event tables are modelled without a foreign-key check.
* JavaScript truthiness tests on strings (`args.category`, `args.expiry ||
  null`, ...) treat the empty string like an absent value; the embedding
  reproduces this with an explicit `= ""` test.
-/

/-- A row of the `affiliate_links` table (schema at src/index.ts:68-83). -/
structure LinkRow where
  id : String
  program : String
  product : String
  link : String
  commission_rate : Rat
  category : String
  tags : Option (List String)
  expiry : Option String
  created_at : String
  updated_at : String
  clicks : Int
  conversions : Int
  revenue : Rat
  notes : Option String
deriving Repr, DecidableEq

/-- A row of the `link_clicks` table (schema at src/index.ts:90-97). -/
structure ClickRow where
  id : String
  link_id : String
  timestamp : String
  source : Option String
  user_id : Option String
deriving Repr, DecidableEq

/-- A row of the `link_conversions` table (schema at src/index.ts:99-106). -/
structure ConversionRow where
  id : String
  link_id : String
  timestamp : String
  amount : Rat
  order_id : Option String
deriving Repr, DecidableEq

/-- The whole database file: the three tables. -/
structure DB where
  links : List LinkRow
  clicks : List ClickRow
  conversions : List ConversionRow
deriving Repr, DecidableEq

/-- Errors surfaced by a failed SQL statement (caught by the handler's
`try/catch` and returned as an error payload).  `duplicateLink` is the
UNIQUE-constraint violation on `affiliate_links.link` that the spec's
error taxonomy calls `DuplicateLink`; `duplicateId` is a primary-key
collision. -/
inductive StoreError where
  | duplicateId
  | duplicateLink
deriving Repr, DecidableEq

/-- JavaScript truthiness normalization for nullable string arguments:
`args.x || null` maps the empty string to NULL. -/
def normOpt (o : Option String) : Option String :=
  match o with
  | some s => if s = "" then none else some s
  | none => none

/-- Arguments of the `store_affiliate_link` tool (required: program,
product, link, commissionRate, category; optional: tags, expiry, notes). -/
structure StoreArgs where
  program : String
  product : String
  link : String
  commissionRate : Rat
  category : String
  tags : Option (List String) := none
  expiry : Option String := none
  notes : Option String := none
deriving Repr, DecidableEq

/-- The single `INSERT INTO affiliate_links ...` statement: fails on a
primary-key collision on `id` or a UNIQUE violation on `link`, otherwise
appends the row. -/
def insertLinkRow (db : DB) (r : LinkRow) : Except StoreError DB :=
  if db.links.any (fun x => x.id = r.id) then .error .duplicateId
  else if db.links.any (fun x => x.link = r.link) then .error .duplicateLink
  else .ok { db with links := db.links ++ [r] }

/-- The row built by the `store_affiliate_link` INSERT (src/index.ts:371-387):
only the first ten columns are named, so `clicks`, `conversions`, `revenue`
take their schema defaults (0) and `notes` stays NULL; `args.expiry || null`
turns an empty string into NULL. -/
def newLinkRow (a : StoreArgs) (id now : String) : LinkRow :=
  { id := id
    program := a.program
    product := a.product
    link := a.link
    commission_rate := a.commissionRate
    category := a.category
    tags := a.tags
    expiry := normOpt a.expiry
    created_at := now
    updated_at := now
    clicks := 0
    conversions := 0
    revenue := 0
    notes := none }

/-- The `store_affiliate_link` handler (src/index.ts:368-400).  `id` and
`now` stand for `generateId()` and `new Date().toISOString()`. -/
def storeAffiliateLink (db : DB) (a : StoreArgs) (id now : String) :
    Except StoreError (DB × String) :=
  (insertLinkRow db (newLinkRow a id now)).map (fun db1 => (db1, id))

/-- The handler's `try/catch`: a failed statement leaves the database
unchanged (the statement's own transaction rolls back) and the error is
returned as the result payload. -/
def applyStore (db : DB) (a : StoreArgs) (id now : String) :
    DB × Except StoreError String :=
  match storeAffiliateLink db a id now with
  | .ok (db1, i) => (db1, .ok i)
  | .error e => (db, .error e)

/-- `SELECT * FROM affiliate_links WHERE id = ?` with `stmt.get`: the first
matching row (`id` is the primary key, so there is at most one). -/
def findLink (db : DB) (id : String) : Option LinkRow :=
  db.links.find? (fun r => r.id = id)

/-- The record shape produced by `getAffiliateLink` / `getAllAffiliateLinks`
(src/index.ts:118-160): column names camel-cased and `tags` deserialized. -/
structure AffiliateLinkRec where
  id : String
  program : String
  product : String
  link : String
  commissionRate : Rat
  category : String
  tags : List String
  expiry : Option String
  createdAt : String
  updatedAt : String
  clicks : Int
  conversions : Int
  revenue : Rat
  notes : Option String
deriving Repr, DecidableEq

/-- The row-to-record mapping shared by `getAffiliateLink` and
`getAllAffiliateLinks`: `row.tags ? JSON.parse(row.tags) : []`. -/
def rowToLink (row : LinkRow) : AffiliateLinkRec :=
  { id := row.id
    program := row.program
    product := row.product
    link := row.link
    commissionRate := row.commission_rate
    category := row.category
    tags := row.tags.getD []
    expiry := row.expiry
    createdAt := row.created_at
    updatedAt := row.updated_at
    clicks := row.clicks
    conversions := row.conversions
    revenue := row.revenue
    notes := row.notes }

/-- `getAffiliateLink` (src/index.ts:118-139). -/
def getAffiliateLink (db : DB) (id : String) : Option AffiliateLinkRec :=
  (findLink db id).map rowToLink

/-- `ORDER BY created_at DESC`: newer timestamp first. -/
def createdGe (a b : LinkRow) : Prop := b.created_at ≤ a.created_at

instance : DecidableRel createdGe :=
  fun a b => inferInstanceAs (Decidable (b.created_at ≤ a.created_at))

instance : IsTotal LinkRow createdGe :=
  ⟨fun a b => (le_total b.created_at a.created_at).imp id id⟩

instance : IsTrans LinkRow createdGe :=
  ⟨fun _ _ _ h1 h2 => le_trans h2 h1⟩

/-- `getAllAffiliateLinks` (src/index.ts:141-160): every row, ordered by
`created_at DESC` (insertion sort realizes the ORDER BY; tie order is
unspecified by SQL and irrelevant to the claims). -/
def getAllAffiliateLinks (db : DB) : List AffiliateLinkRec :=
  (List.insertionSort createdGe db.links).map rowToLink

/-- `ORDER BY commission_rate DESC`: higher rate first. -/
def commissionGe (a b : LinkRow) : Prop :=
  b.commission_rate ≤ a.commission_rate

instance : DecidableRel commissionGe :=
  fun a b => inferInstanceAs (Decidable (b.commission_rate ≤ a.commission_rate))

instance : IsTotal LinkRow commissionGe :=
  ⟨fun a b => (le_total b.commission_rate a.commission_rate).imp id id⟩

instance : IsTrans LinkRow commissionGe :=
  ⟨fun _ _ _ h1 h2 => le_trans h2 h1⟩

/-- Arguments of the `get_affiliate_links` tool, all optional. -/
structure LinksFilter where
  category : Option String := none
  program : Option String := none
  minCommission : Option Rat := none
  maxCommission : Option Rat := none
  limit : Option Nat := none
deriving Repr, DecidableEq

/-- The WHERE clause assembled at src/index.ts:403-421: a clause is added
for `category` / `program` only when the argument is truthy (so an empty
string adds no clause), and for the commission bounds whenever they are
not `undefined`. -/
def sqlPred (f : LinksFilter) (r : LinkRow) : Bool :=
  (match f.category with
   | some c => if c = "" then true else decide (r.category = c)
   | none => true) &&
  (match f.program with
   | some p => if p = "" then true else decide (r.program = p)
   | none => true) &&
  (match f.minCommission with
   | some m => decide (m ≤ r.commission_rate)
   | none => true) &&
  (match f.maxCommission with
   | some m => decide (r.commission_rate ≤ m)
   | none => true)

/-- `args.limit || 50`: a missing limit and a limit of 0 both become 50.
(A negative LIMIT, which SQLite reads as unlimited, cannot be supplied
through this model; no claim concerns it.) -/
def limitVal (f : LinksFilter) : Nat :=
  match f.limit with
  | some n => if n = 0 then 50 else n
  | none => 50

/-- The `get_affiliate_links` query (src/index.ts:402-427):
`SELECT * FROM affiliate_links WHERE ... ORDER BY commission_rate DESC
LIMIT ?`. -/
def getAffiliateLinksQuery (db : DB) (f : LinksFilter) : List LinkRow :=
  (List.insertionSort commissionGe (db.links.filter (sqlPred f))).take (limitVal f)

/-- Modelled from the spec (§4.1 list): the property "the link satisfies
the conjunction of the supplied filters (exact match on category and
program, commissionRate within the inclusive min/max bounds)".  Used to
compare the SQL predicate built by the code against the spec's words. -/
def matchesFilter (f : LinksFilter) (r : LinkRow) : Prop :=
  (∀ c, f.category = some c → r.category = c) ∧
  (∀ p, f.program = some p → r.program = p) ∧
  (∀ m, f.minCommission = some m → m ≤ r.commission_rate) ∧
  (∀ m, f.maxCommission = some m → r.commission_rate ≤ m)

instance (f : LinksFilter) (r : LinkRow) : Decidable (matchesFilter f r) := by
  unfold matchesFilter; infer_instance

/-- `SELECT COUNT(*) FROM link_clicks WHERE link_id = ?`. -/
def countClicks (db : DB) (linkId : String) : Nat :=
  (db.clicks.filter (fun c => c.link_id = linkId)).length

/-- `SELECT COUNT(*) FROM link_conversions WHERE link_id = ?`. -/
def countConversions (db : DB) (linkId : String) : Nat :=
  (db.conversions.filter (fun c => c.link_id = linkId)).length

/-- The sum of `amount` over the raw conversion rows of a link (what
summing the event log would give — `get_stats` does not compute this). -/
def sumConversionAmounts (db : DB) (linkId : String) : Rat :=
  ((db.conversions.filter (fun c => c.link_id = linkId)).map
    (fun c => c.amount)).sum

/-- Two-decimal rendering of a rational, standing in for JavaScript
`Number.prototype.toFixed(2)` (whose binary-float rounding is out of
scope; no claim depends on the rendered digits). -/
def toFixed2 (q : Rat) : String :=
  let n : Int := round (q * 100)
  let w := n / 100
  let f := (n % 100).natAbs
  toString w ++ "." ++ (if f < 10 then "0" else "") ++ toString f

/-- The result object of `get_stats`. -/
structure StatsResult where
  linkId : String
  product : String
  program : String
  clicks : Nat
  conversions : Nat
  revenue : Rat
  conversionRate : String
deriving Repr, DecidableEq

/-- The `get_stats` handler (src/index.ts:518-553): looks the link up via
`getAffiliateLink` (`none` = the "Link not found" error payload), counts
the raw click and conversion rows, and reports `link.revenue` — the cached
counter on the link record — as the revenue. -/
def getStats (db : DB) (linkId : String) : Option StatsResult :=
  match getAffiliateLink db linkId with
  | none => none
  | some link =>
    let clicks := countClicks db linkId
    let conversions := countConversions db linkId
    some
      { linkId := linkId
        product := link.product
        program := link.program
        clicks := clicks
        conversions := conversions
        revenue := link.revenue
        conversionRate :=
          if clicks > 0 then
            toFixed2 ((conversions : Rat) / (clicks : Rat) * 100) ++ "%"
          else "0%" }

/-- First statement of the `track_click` handler (src/index.ts:556-560):
`INSERT INTO link_clicks ...`, its own autocommit transaction.  Fails only
on a primary-key collision; the foreign key on `link_id` is declared but
not enforced (no `PRAGMA foreign_keys = ON`). -/
def clickInsertPhase (db : DB) (ev : ClickRow) : Except StoreError DB :=
  if db.clicks.any (fun c => c.id = ev.id) then .error .duplicateId
  else .ok { db with clicks := db.clicks ++ [ev] }

/-- Second statement of the `track_click` handler (src/index.ts:562-563):
`UPDATE affiliate_links SET clicks = clicks + 1 WHERE id = ?`, again its
own autocommit transaction; affects zero rows when the id is absent. -/
def clickUpdatePhase (db : DB) (linkId : String) : DB :=
  { db with
    links := db.links.map (fun r =>
      if r.id = linkId then { r with clicks := r.clicks + 1 } else r) }

/-- The whole `track_click` handler: the two statements run one after the
other, not inside a wrapping transaction.  `.ok` is the
`{ success: true, message: "Click tracked" }` result. -/
def trackClick (db : DB) (evId linkId ts : String)
    (source userId : Option String) : Except StoreError DB :=
  (clickInsertPhase db
    { id := evId, link_id := linkId, timestamp := ts
      source := normOpt source, user_id := normOpt userId }).map
    (fun db1 => clickUpdatePhase db1 linkId)

/-- First statement of the `track_conversion` handler (src/index.ts:576-586):
`INSERT INTO link_conversions ...`. -/
def conversionInsertPhase (db : DB) (ev : ConversionRow) : Except StoreError DB :=
  if db.conversions.any (fun c => c.id = ev.id) then .error .duplicateId
  else .ok { db with conversions := db.conversions ++ [ev] }

/-- Second statement of the `track_conversion` handler (src/index.ts:588-591):
`UPDATE affiliate_links SET conversions = conversions + 1,
revenue = revenue + ? WHERE id = ?`. -/
def conversionUpdatePhase (db : DB) (linkId : String) (amount : Rat) : DB :=
  { db with
    links := db.links.map (fun r =>
      if r.id = linkId then
        { r with conversions := r.conversions + 1, revenue := r.revenue + amount }
      else r) }

/-- The whole `track_conversion` handler (src/index.ts:575-604). -/
def trackConversion (db : DB) (evId linkId ts : String) (amount : Rat)
    (orderId : Option String) : Except StoreError DB :=
  (conversionInsertPhase db
    { id := evId, link_id := linkId, timestamp := ts
      amount := amount, order_id := normOpt orderId }).map
    (fun db1 => conversionUpdatePhase db1 linkId amount)

/-- N consecutive `track_click` calls for one link, with the freshly
generated event ids passed as a list. -/
def trackClicksN (db : DB) (linkId : String) (evIds : List String) :
    Except StoreError DB :=
  match evIds with
  | [] => .ok db
  | i :: rest =>
    match trackClick db i linkId "" none none with
    | .error e => .error e
    | .ok db1 => trackClicksN db1 linkId rest

/-- The cached `clicks` counter of a link, when the link exists. -/
def cachedClicks (db : DB) (linkId : String) : Option Int :=
  (findLink db linkId).map (fun r => r.clicks)

/-- The cached `revenue` counter of a link, when the link exists. -/
def cachedRevenue (db : DB) (linkId : String) : Option Rat :=
  (findLink db linkId).map (fun r => r.revenue)

/-- A JSON value, for the output of `export_links` with format `json`.
The handler returns `JSON.stringify(getAllAffiliateLinks(), null, 2)`;
since parsing inverts stringification, the embedding works at the level
of the JSON value tree (string rendering is plumbing, out of scope per
spec §1). -/
inductive Json where
  | null : Json
  | str : String → Json
  | num : Rat → Json
  | arr : List Json → Json
  | obj : List (String × Json) → Json

/-- A nullable string column, as it appears in the JSON export
(`better-sqlite3` returns NULL columns as `null`, which `JSON.stringify`
keeps). -/
def optStr : Option String → Json
  | none => Json.null
  | some s => Json.str s

/-- One exported link object: the fields of the record produced by
`getAllAffiliateLinks`, in declaration order; `tags` is a JSON array. -/
def linkToJson (l : AffiliateLinkRec) : Json :=
  Json.obj
    [ ("id", Json.str l.id)
    , ("program", Json.str l.program)
    , ("product", Json.str l.product)
    , ("link", Json.str l.link)
    , ("commissionRate", Json.num l.commissionRate)
    , ("category", Json.str l.category)
    , ("tags", Json.arr (l.tags.map Json.str))
    , ("expiry", optStr l.expiry)
    , ("createdAt", Json.str l.createdAt)
    , ("updatedAt", Json.str l.updatedAt)
    , ("clicks", Json.num (l.clicks : Rat))
    , ("conversions", Json.num (l.conversions : Rat))
    , ("revenue", Json.num l.revenue)
    , ("notes", optStr l.notes) ]

/-- The list of objects inside the exported JSON array. -/
def exportedLinkObjects (db : DB) : List Json :=
  (getAllAffiliateLinks db).map linkToJson

/-- The `export_links` handler with format `json` (src/index.ts:636-645). -/
def exportLinksJson (db : DB) : Json :=
  Json.arr (exportedLinkObjects db)

/-- Field lookup in a parsed JSON object. -/
def jsonLookup (j : Json) (k : String) : Option Json :=
  match j with
  | Json.obj fs => (fs.find? (fun p => p.1 = k)).map (fun p => p.2)
  | _ => none

/-- Reading a JSON value back as a string. -/
def asStr : Json → Option String
  | Json.str s => some s
  | _ => none

/-- Reading a JSON value back as a number. -/
def asNum : Json → Option Rat
  | Json.num q => some q
  | _ => none

/-- Reading a JSON value back as a nullable string. -/
def asOptStr : Json → Option (Option String)
  | Json.null => some none
  | Json.str s => some (some s)
  | _ => none

/-- Reading a JSON value back as an integer. -/
def asInt : Json → Option Int
  | Json.num q => if q.den = 1 then some q.num else none
  | _ => none

/-- Reading a list of JSON values back as strings, all of them. -/
def asStrList : List Json → Option (List String)
  | [] => some []
  | j :: rest =>
    match asStr j, asStrList rest with
    | some s, some t => some (s :: t)
    | _, _ => none

/-- Reading a JSON value back as an array of strings.  Succeeds only on a
JSON array each of whose elements is a string — in particular it fails on
a serialized string such as `"[\x22a\x22]"`. -/
def asStrArr : Json → Option (List String)
  | Json.arr xs => asStrList xs
  | _ => none

/-- Parsing one exported object back into an `AffiliateLinkRec`. -/
def jsonToLink (j : Json) : Option AffiliateLinkRec :=
  match (jsonLookup j "id").bind asStr,
        (jsonLookup j "program").bind asStr,
        (jsonLookup j "product").bind asStr,
        (jsonLookup j "link").bind asStr,
        (jsonLookup j "commissionRate").bind asNum,
        (jsonLookup j "category").bind asStr,
        (jsonLookup j "tags").bind asStrArr with
  | some id, some program, some product, some link, some rate, some category,
    some tags =>
    match (jsonLookup j "expiry").bind asOptStr,
          (jsonLookup j "createdAt").bind asStr,
          (jsonLookup j "updatedAt").bind asStr,
          (jsonLookup j "clicks").bind asInt,
          (jsonLookup j "conversions").bind asInt,
          (jsonLookup j "revenue").bind asNum,
          (jsonLookup j "notes").bind asOptStr with
    | some expiry, some createdAt, some updatedAt, some clicks,
      some conversions, some revenue, some notes =>
      some
        { id := id, program := program, product := product, link := link
          commissionRate := rate, category := category, tags := tags
          expiry := expiry, createdAt := createdAt, updatedAt := updatedAt
          clicks := clicks, conversions := conversions, revenue := revenue
          notes := notes }
    | _, _, _, _, _, _, _ => none
  | _, _, _, _, _, _, _ => none

/-- A minimal link row for concrete instances. -/
def mkRow (id link : String) (rate : Rat) (cat : String) : LinkRow :=
  { id := id, program := "AmazonAssoc", product := "Widget", link := link
    commission_rate := rate, category := cat, tags := none, expiry := none
    created_at := "2024-01-01T00:00:00Z", updated_at := "2024-01-01T00:00:00Z"
    clicks := 0, conversions := 0, revenue := 0, notes := none }

/-- A store holding one freshly created link `L1`. -/
def dbOneLink : DB :=
  { links := [mkRow "L1" "https://a.example/1" 5 "tech"]
    clicks := [], conversions := [] }

/-- The state after only the first statement of a `track_click` call on
`dbOneLink` has committed. -/
def dbClickMid : DB :=
  { dbOneLink with
    clicks := [{ id := "e1", link_id := "L1", timestamp := "t1"
                 source := none, user_id := none }] }

/-- The state after only the first statement of a `track_conversion` call
(amount 5) on `dbOneLink` has committed. -/
def dbConvMid : DB :=
  { dbOneLink with
    conversions := [{ id := "c1", link_id := "L1", timestamp := "t1"
                      amount := 5, order_id := none }] }

/-! ## Helper lemmas -/

/-- `find?` on a row predicate that only inspects the id commutes with a
row transformation that preserves ids. -/
theorem find?_map_of_id_pres (f : LinkRow → LinkRow)
    (hf : ∀ r, (f r).id = r.id) (i : String) :
    ∀ l : List LinkRow,
      (l.map f).find? (fun r => r.id = i) =
        (l.find? (fun r => r.id = i)).map f := by
  intro l
  induction l with
  | nil => rfl
  | cons a t ih =>
    by_cases h : a.id = i
    · simp [List.find?_cons, hf, h]
    · simp [List.find?_cons, hf, h, ih]

/-- The click-counter UPDATE increments the matching row (and only the
clicks field) as seen through `findLink`. -/
theorem findLink_clickUpdatePhase (db : DB) (lid i : String) :
    findLink (clickUpdatePhase db lid) i =
      (findLink db i).map
        (fun r => if r.id = lid then { r with clicks := r.clicks + 1 } else r) := by
  unfold findLink clickUpdatePhase
  exact find?_map_of_id_pres _ (fun r => by by_cases h : r.id = lid <;> simp [h]) i db.links

/-- The conversion-counter UPDATE, as seen through `findLink`. -/
theorem findLink_conversionUpdatePhase (db : DB) (lid i : String) (amount : Rat) :
    findLink (conversionUpdatePhase db lid amount) i =
      (findLink db i).map
        (fun r => if r.id = lid then
            { r with conversions := r.conversions + 1, revenue := r.revenue + amount }
          else r) := by
  unfold findLink conversionUpdatePhase
  exact find?_map_of_id_pres _ (fun r => by by_cases h : r.id = lid <;> simp [h]) i db.links

/-- Appending one click event changes the raw count of exactly its link. -/
theorem countClicks_append (db : DB) (ev : ClickRow) (i : String) :
    countClicks { db with clicks := db.clicks ++ [ev] } i =
      countClicks db i + (if ev.link_id = i then 1 else 0) := by
  by_cases h : ev.link_id = i <;>
    simp [countClicks, List.filter_append, h]

/-- Inversion of a successful `track_click`: the final state is the
committed insert followed by the committed counter update. -/
theorem trackClick_ok {db db' : DB} {evId lid ts : String}
    {s u : Option String}
    (h : trackClick db evId lid ts s u = .ok db') :
    db.clicks.any (fun c => c.id = evId) = false ∧
    db' = clickUpdatePhase
      { db with clicks := db.clicks ++
          [{ id := evId, link_id := lid, timestamp := ts
             source := normOpt s, user_id := normOpt u }] } lid := by
  unfold trackClick clickInsertPhase at h
  by_cases hd : db.clicks.any (fun c => c.id = evId) = true
  · simp [hd, Except.map] at h
  · simp only [Bool.not_eq_true] at hd
    simp [hd, Except.map] at h
    exact ⟨hd, h.symm⟩

/-- Inversion of a successful `track_conversion`. -/
theorem trackConversion_ok {db db' : DB} {evId lid ts : String} {amount : Rat}
    {o : Option String}
    (h : trackConversion db evId lid ts amount o = .ok db') :
    db.conversions.any (fun c => c.id = evId) = false ∧
    db' = conversionUpdatePhase
      { db with conversions := db.conversions ++
          [{ id := evId, link_id := lid, timestamp := ts
             amount := amount, order_id := normOpt o }] } lid amount := by
  unfold trackConversion conversionInsertPhase at h
  by_cases hd : db.conversions.any (fun c => c.id = evId) = true
  · simp [hd, Except.map] at h
  · simp only [Bool.not_eq_true] at hd
    simp [hd, Except.map] at h
    exact ⟨hd, h.symm⟩

/-- One successful `track_click` call: the raw count of the tracked link
goes up by one and the cached counter of that link (when it exists) goes
up by one. -/
theorem trackClick_counts {db db' : DB} {evId lid ts : String}
    {s u : Option String}
    (h : trackClick db evId lid ts s u = .ok db') :
    countClicks db' lid = countClicks db lid + 1 ∧
    cachedClicks db' lid = (cachedClicks db lid).map (fun n => n + 1) := by
  obtain ⟨-, rfl⟩ := trackClick_ok h
  constructor
  · have hins := countClicks_append db
      { id := evId, link_id := lid, timestamp := ts
        source := normOpt s, user_id := normOpt u } lid
    simp only [clickUpdatePhase] at hins ⊢
    exact hins
  · rw [cachedClicks, findLink_clickUpdatePhase]
    have hfl : findLink { db with clicks := db.clicks ++
        [{ id := evId, link_id := lid, timestamp := ts
           source := normOpt s, user_id := normOpt u }] } lid = findLink db lid := rfl
    rw [hfl, cachedClicks]
    cases hfind : findLink db lid with
    | none => rfl
    | some r =>
      have hr : r.id = lid := by
        have := List.find?_some hfind
        simpa using this
      simp [hr]

/-! ## Claims -/

/-- C1: the claim says the event insert and the counter increment of
`track_click` / `track_conversion` form one atomic durable unit of work
with no observable intermediate state.  The handlers actually issue two
separate autocommit statements with no wrapping transaction, so the state
after only the first statement — event row present, counter untouched —
is a durably committed state.  This theorem evaluates the code at the
failing input: on a one-link store, after the insert phase of
`track_click` the raw click count is 1 while the cached counter is 0,
and likewise after the insert phase of `track_conversion` the raw
amount sum is 5 while the cached revenue is 0. -/
theorem track_event_and_counter_not_atomic :
    clickInsertPhase dbOneLink
        { id := "e1", link_id := "L1", timestamp := "t1"
          source := none, user_id := none } = .ok dbClickMid ∧
    trackClick dbOneLink "e1" "L1" "t1" none none
        = .ok (clickUpdatePhase dbClickMid "L1") ∧
    countClicks dbClickMid "L1" = 1 ∧
    cachedClicks dbClickMid "L1" = some 0 ∧
    conversionInsertPhase dbOneLink
        { id := "c1", link_id := "L1", timestamp := "t1"
          amount := 5, order_id := none } = .ok dbConvMid ∧
    trackConversion dbOneLink "c1" "L1" "t1" 5 none
        = .ok (conversionUpdatePhase dbConvMid "L1" 5) ∧
    countConversions dbConvMid "L1" = 1 ∧
    cachedRevenue dbConvMid "L1" = some 0 ∧
    sumConversionAmounts dbConvMid "L1" = 5 := by
  refine ⟨rfl, rfl, rfl, rfl, rfl, rfl, rfl, rfl, ?_⟩
  norm_num [sumConversionAmounts, dbConvMid, dbOneLink]

/-- C2 (counterexample): on a store where the raw conversion rows of `L1`
sum to 5 but the cached `revenue` counter is still 0 (exactly the
committed intermediate state the non-atomic `track_conversion` leaves
behind), `get_stats` reports revenue 0 — the cached counter — and not the
sum 5 of the raw event rows.  This refutes the claim that the revenue in
the `get_stats` output is computed by summing raw event rows. -/
theorem getStats_revenue_not_from_events_cx :
    (getStats dbConvMid "L1").map (fun s => s.revenue) = some 0 ∧
    sumConversionAmounts dbConvMid "L1" = 5 ∧
    (0 : Rat) ≠ 5 := by
  refine ⟨rfl, ?_, by norm_num⟩
  norm_num [sumConversionAmounts, dbConvMid, dbOneLink]

/-- C2 (amended): for every existing linkId, `get_stats` returns the
clicks and conversions counts computed by counting the raw event rows
(`link_clicks` and `link_conversions`) referencing that link, but returns
as revenue the cached counter stored on the `affiliate_links` record, not
a sum over the raw event rows. -/
theorem getStats_counts_raw_revenue_cached {db : DB} {lid : String}
    {l : LinkRow} {st : StatsResult}
    (hl : findLink db lid = some l)
    (hst : getStats db lid = some st) :
    st.clicks = countClicks db lid ∧
    st.conversions = countConversions db lid ∧
    st.revenue = l.revenue := by
  unfold getStats getAffiliateLink at hst
  rw [hl] at hst
  simp only [Option.map_some] at hst
  cases hst
  exact ⟨rfl, rfl, rfl⟩

/-- The concrete `get_stats` output used to witness
`getStats_counts_raw_revenue_cached`. -/
def c2St : StatsResult :=
  { linkId := "L1", product := "Widget", program := "AmazonAssoc"
    clicks := 0, conversions := 1, revenue := 0, conversionRate := "0%" }

/-- Witness for C2's amended theorem at the concrete store `dbConvMid`. -/
theorem getStats_counts_raw_revenue_cached_witness :
    c2St.clicks = countClicks dbConvMid "L1" ∧
    c2St.conversions = countConversions dbConvMid "L1" ∧
    c2St.revenue = (mkRow "L1" "https://a.example/1" 5 "tech").revenue :=
  @getStats_counts_raw_revenue_cached dbConvMid "L1"
    (mkRow "L1" "https://a.example/1" 5 "tech") c2St rfl rfl

/-- C3 (counterexample): `track_conversion` accepts a negative amount, and
the cached revenue of the link drops from 0 to -5: the revenue field is
not monotonically non-decreasing over all operation sequences. -/
theorem revenue_not_monotone_cx :
    (trackConversion dbOneLink "c1" "L1" "t1" (-5) none).map
        (fun d => cachedRevenue d "L1") = .ok (some (-5)) ∧
    cachedRevenue dbOneLink "L1" = some 0 ∧
    ¬ ((0 : Rat) ≤ -5) := by
  refine ⟨?_, rfl, by norm_num⟩
  norm_num [trackConversion, conversionInsertPhase, conversionUpdatePhase,
    dbOneLink, mkRow, cachedRevenue, findLink, normOpt, Except.map]

/-- C3 (amended): a successful `track_conversion` adds `amount` to the
tracked link's revenue and touches no other link, so every link's revenue
is non-decreasing provided the (unvalidated) amount is non-negative. -/
theorem trackConversion_revenue_mono {db db' : DB} {evId lid ts : String}
    {amount : Rat} {o : Option String}
    (ha : 0 ≤ amount)
    (h : trackConversion db evId lid ts amount o = .ok db') :
    List.Forall₂ (fun r r' => r.id = r'.id ∧ r.revenue ≤ r'.revenue)
      db.links db'.links := by
  obtain ⟨-, rfl⟩ := trackConversion_ok h
  simp only [conversionUpdatePhase]
  induction db.links with
  | nil => constructor
  | cons a t ih =>
    refine List.Forall₂.cons ?_ ih
    by_cases hid : a.id = lid
    · simp only [hid, if_pos rfl]
      exact ⟨rfl, le_add_of_nonneg_right ha⟩
    · simp [hid]

/-- The state after a full `track_conversion` of amount 5 on `dbOneLink`. -/
def dbConvDone : DB := conversionUpdatePhase dbConvMid "L1" 5

/-- Witness for C3's amended theorem at a concrete conversion of amount 5. -/
theorem trackConversion_revenue_mono_witness :
    List.Forall₂ (fun r r' => r.id = r'.id ∧ r.revenue ≤ r'.revenue)
      dbOneLink.links dbConvDone.links :=
  @trackConversion_revenue_mono dbOneLink dbConvDone "c1" "L1" "t1" 5 none
    (by norm_num) rfl

/-- Inversion of a successful `store_affiliate_link`: the returned id is
the generated one, both uniqueness checks passed, and the new row was
appended. -/
theorem storeAffiliateLink_ok {db : DB} {a : StoreArgs} {id now : String}
    {db1 : DB} {lid : String}
    (h : storeAffiliateLink db a id now = .ok (db1, lid)) :
    lid = id ∧ db.links.any (fun x => x.id = id) = false ∧
    db.links.any (fun x => x.link = a.link) = false ∧
    db1 = { db with links := db.links ++ [newLinkRow a id now] } := by
  unfold storeAffiliateLink insertLinkRow at h
  by_cases h1 : db.links.any (fun x => x.id = (newLinkRow a id now).id) = true
  · simp [h1, Except.map] at h
  · simp only [Bool.not_eq_true] at h1
    by_cases h2 : db.links.any (fun x => x.link = (newLinkRow a id now).link) = true
    · simp [h1, h2, Except.map] at h
    · simp only [Bool.not_eq_true] at h2
      simp [h1, h2, Except.map] at h
      refine ⟨h.2.symm, ?_, ?_, h.1.symm⟩
      · simpa [newLinkRow] using h1
      · simpa [newLinkRow] using h2

/-- N successful `track_click` calls move both the raw event count and
the cached counter up by N. -/
theorem trackClicksN_counts :
    ∀ (evIds : List String) (db db' : DB) (lid : String),
      trackClicksN db lid evIds = .ok db' →
      countClicks db' lid = countClicks db lid + evIds.length ∧
      cachedClicks db' lid =
        (cachedClicks db lid).map (fun n => n + (evIds.length : Int)) := by
  intro evIds
  induction evIds with
  | nil =>
    intro db db' lid h
    simp only [trackClicksN] at h
    cases h
    constructor
    · rfl
    · cases cachedClicks db lid <;> simp
  | cons i rest ih =>
    intro db db' lid h
    simp only [trackClicksN] at h
    cases htc : trackClick db i lid "" none none with
    | error e => rw [htc] at h; cases h
    | ok db1 =>
      rw [htc] at h
      obtain ⟨h1, h2⟩ := ih db1 db' lid h
      obtain ⟨hc1, hc2⟩ := trackClick_counts htc
      constructor
      · rw [h1, hc1]; simp only [List.length_cons]; omega
      · rw [h2, hc2]
        cases cachedClicks db lid with
        | none => rfl
        | some n =>
          simp only [Option.map, List.length_cons]
          congr 1
          push_cast
          ring

/-- C4: for a link created by `store_affiliate_link` (cached counter 0)
whose fresh id has no pre-existing click events, after N successful
`track_click` calls for that id the cached `clicks` counter equals N and
equals the number of rows in `link_clicks` referencing the link. -/
theorem clicks_counter_equals_event_count {db db1 db' : DB} {a : StoreArgs}
    {gid now lid : String} {evIds : List String}
    (hstore : storeAffiliateLink db a gid now = .ok (db1, lid))
    (hfresh : countClicks db1 lid = 0)
    (htrack : trackClicksN db1 lid evIds = .ok db') :
    cachedClicks db' lid = some (evIds.length : Int) ∧
    countClicks db' lid = evIds.length := by
  obtain ⟨rfl, hid, -, rfl⟩ := storeAffiliateLink_ok hstore
  have hnone : db.links.find? (fun r => r.id = lid) = none := by
    apply List.find?_eq_none.2
    intro x hx
    have := (List.any_eq_false).1 hid x hx
    simpa using this
  have hcache :
      cachedClicks { db with links := db.links ++ [newLinkRow a lid now] } lid
        = some 0 := by
    unfold cachedClicks findLink
    simp only [List.find?_append, hnone, Option.none_or]
    simp [newLinkRow, List.find?]
  obtain ⟨h1, h2⟩ := trackClicksN_counts evIds _ db' lid htrack
  rw [hcache] at h2
  rw [hfresh] at h1
  simp only [Option.map] at h2
  constructor
  · rw [h2]; simp
  · simpa using h1

/-- The `store_affiliate_link` arguments that produce `dbOneLink`'s row. -/
def c4Args : StoreArgs :=
  { program := "AmazonAssoc", product := "Widget"
    link := "https://a.example/1", commissionRate := 5, category := "tech" }

/-- A click event row as inserted by `trackClicksN`. -/
def c4Ev (i : String) : ClickRow :=
  { id := i, link_id := "L1", timestamp := "", source := none, user_id := none }

/-- The store after creating `L1` and tracking two clicks. -/
def c4Final : DB :=
  { links := [{ mkRow "L1" "https://a.example/1" 5 "tech" with clicks := 2 }]
    clicks := [c4Ev "e1", c4Ev "e2"]
    conversions := [] }

/-- Witness for C4 at a concrete run: create `L1` on an empty store, track
two clicks; counter and event count are both 2. -/
theorem clicks_counter_equals_event_count_witness :
    cachedClicks c4Final "L1" = some ((["e1", "e2"].length : Nat) : Int) ∧
    countClicks c4Final "L1" = ["e1", "e2"].length :=
  @clicks_counter_equals_event_count ⟨[], [], []⟩ dbOneLink c4Final c4Args
    "L1" "2024-01-01T00:00:00Z" "L1" ["e1", "e2"] rfl rfl rfl

/-- C5: storing a second affiliate link whose URL equals that of an
already-stored link fails with the `DuplicateLink` error (the UNIQUE
violation on `affiliate_links.link`), and the database — in particular
the first link's row — is left entirely unchanged.  The generated id is
assumed fresh, as `generateId()` produces. -/
theorem duplicate_link_store_rejected {db : DB} {a : StoreArgs} {gid now : String}
    (hid : db.links.any (fun x => x.id = gid) = false)
    (hdup : db.links.any (fun x => x.link = a.link) = true) :
    applyStore db a gid now = (db, .error .duplicateLink) := by
  unfold applyStore storeAffiliateLink insertLinkRow
  simp [newLinkRow, hid, hdup, Except.map]

/-- A second link with the same URL as `dbOneLink`'s only link. -/
def c5Args : StoreArgs :=
  { program := "OtherProg", product := "OtherProd"
    link := "https://a.example/1", commissionRate := 9, category := "home" }

/-- Witness for C5: inserting a duplicate URL into `dbOneLink` is
rejected and the store is unchanged. -/
theorem duplicate_link_store_rejected_witness :
    applyStore dbOneLink c5Args "L2" "2024-02-02T00:00:00Z"
      = (dbOneLink, .error .duplicateLink) :=
  @duplicate_link_store_rejected dbOneLink c5Args "L2" "2024-02-02T00:00:00Z"
    (by decide) (by decide)

/-- C9: for a linkId that references no existing affiliate link,
`track_click` still inserts the click event row and returns a success
result; the counter UPDATE matches zero rows, so the `affiliate_links`
table (and the conversions table) are unchanged. -/
theorem trackClick_nonexistent_link {db : DB} {evId lid ts : String}
    {s u : Option String}
    (hnolink : db.links.any (fun r => r.id = lid) = false)
    (hfresh : db.clicks.any (fun c => c.id = evId) = false) :
    trackClick db evId lid ts s u =
      .ok { db with clicks := db.clicks ++
        [{ id := evId, link_id := lid, timestamp := ts
           source := normOpt s, user_id := normOpt u }] } := by
  unfold trackClick clickInsertPhase
  simp only [hfresh, Bool.false_eq_true, if_neg, ite_false, Except.map]
  unfold clickUpdatePhase
  have hrows : ∀ r ∈ db.links,
      (if r.id = lid then { r with clicks := r.clicks + 1 } else r) = r := by
    intro r hr
    have hne := (List.any_eq_false).1 hnolink r hr
    simp only [decide_eq_true_eq] at hne
    simp [hne]
  congr 1
  rw [List.map_congr_left hrows]
  simp [List.map_id]

/-- Witness for C9: tracking a click for the absent id `L404` on
`dbOneLink` succeeds, appends the event, and changes no link row. -/
theorem trackClick_nonexistent_link_witness :
    trackClick dbOneLink "e9" "L404" "t9" none none =
      .ok { dbOneLink with clicks := dbOneLink.clicks ++
        [{ id := "e9", link_id := "L404", timestamp := "t9"
           source := normOpt none, user_id := normOpt none }] } :=
  @trackClick_nonexistent_link dbOneLink "e9" "L404" "t9" none none
    (by decide) (by decide)

/-- C8: for an existing link whose raw click count is 0, `get_stats`
returns the literal string "0%" as conversionRate — the division is
guarded, so no error and no NaN can arise. -/
theorem getStats_zero_clicks {db : DB} {lid : String} {l : AffiliateLinkRec}
    (hl : getAffiliateLink db lid = some l)
    (h0 : countClicks db lid = 0) :
    (getStats db lid).map (fun s => s.conversionRate) = some "0%" := by
  unfold getStats
  rw [hl]
  simp [h0]

/-- Witness for C8 on the concrete store `dbConvMid`, where `L1` exists
and has no click events (but does have a conversion). -/
theorem getStats_zero_clicks_witness :
    (getStats dbConvMid "L1").map (fun s => s.conversionRate) = some "0%" :=
  @getStats_zero_clicks dbConvMid "L1"
    (rowToLink (mkRow "L1" "https://a.example/1" 5 "tech")) rfl rfl

/-- Decoding an all-strings JSON array recovers the strings. -/
theorem asStrList_map_str :
    ∀ ts : List String, asStrList (ts.map Json.str) = some ts := by
  intro ts
  induction ts with
  | nil => rfl
  | cons h t ih => simp [asStrList, asStr, ih]

/-- Parsing one exported link object recovers the exported record
exactly. -/
theorem jsonToLink_linkToJson (l : AffiliateLinkRec) :
    jsonToLink (linkToJson l) = some l := by
  have htags : asStrArr (Json.arr (l.tags.map Json.str)) = some l.tags := by
    simp [asStrArr, asStrList_map_str]
  have hexp : asOptStr (optStr l.expiry) = some l.expiry := by
    cases l.expiry <;> simp [optStr, asOptStr]
  have hnotes : asOptStr (optStr l.notes) = some l.notes := by
    cases l.notes <;> simp [optStr, asOptStr]
  have hclicks : asInt (Json.num (l.clicks : Rat)) = some l.clicks := by
    simp [asInt, Rat.den_intCast, Rat.num_intCast]
  have hconv : asInt (Json.num (l.conversions : Rat)) = some l.conversions := by
    simp [asInt, Rat.den_intCast, Rat.num_intCast]
  simp [jsonToLink, linkToJson, jsonLookup, List.find?, asStr, asNum,
    htags, hexp, hnotes, hclicks, hconv]

/-- Every stored row appears (as its record form) in
`getAllAffiliateLinks`. -/
theorem mem_getAllAffiliateLinks {db : DB} {row : LinkRow}
    (h : row ∈ db.links) : rowToLink row ∈ getAllAffiliateLinks db := by
  unfold getAllAffiliateLinks
  exact List.mem_map_of_mem _
    (((List.perm_insertionSort createdGe db.links).mem_iff).2 h)

/-- C6: for every store state and every stored link, the object for that
link inside the `export_links` json output parses back to exactly the
record read from the row — every stored field as stored (with `tags` as
the deserialization of the stored blob, the empty array for NULL) — and
its `tags` field is a JSON array, never a serialized string. -/
theorem export_json_roundtrip {db : DB} {row : LinkRow} (h : row ∈ db.links) :
    linkToJson (rowToLink row) ∈ exportedLinkObjects db ∧
    jsonToLink (linkToJson (rowToLink row)) = some (rowToLink row) ∧
    (rowToLink row).id = row.id ∧
    (rowToLink row).program = row.program ∧
    (rowToLink row).product = row.product ∧
    (rowToLink row).link = row.link ∧
    (rowToLink row).commissionRate = row.commission_rate ∧
    (rowToLink row).category = row.category ∧
    (rowToLink row).tags = row.tags.getD [] ∧
    (rowToLink row).expiry = row.expiry ∧
    (rowToLink row).createdAt = row.created_at ∧
    (rowToLink row).updatedAt = row.updated_at ∧
    (rowToLink row).clicks = row.clicks ∧
    (rowToLink row).conversions = row.conversions ∧
    (rowToLink row).revenue = row.revenue ∧
    (rowToLink row).notes = row.notes ∧
    jsonLookup (linkToJson (rowToLink row)) "tags"
      = some (Json.arr ((row.tags.getD []).map Json.str)) ∧
    (∀ s, jsonLookup (linkToJson (rowToLink row)) "tags" ≠ some (Json.str s)) := by
  refine ⟨List.mem_map_of_mem _ (mem_getAllAffiliateLinks h),
    jsonToLink_linkToJson _, rfl, rfl, rfl, rfl, rfl, rfl, rfl, rfl, rfl, rfl,
    rfl, rfl, rfl, rfl, rfl, ?_⟩
  intro s hcon
  exact Json.noConfusion (Option.some.inj hcon)

/-- A stored row with tags, notes and a nonzero counter, for the C6
witness. -/
def c6Row : LinkRow :=
  { mkRow "L1" "https://a.example/1" 5 "tech" with
    tags := some ["deal", "tech"], notes := some "note", clicks := 3 }

/-- A one-row store for the C6 witness. -/
def c6Db : DB := { links := [c6Row], clicks := [], conversions := [] }

/-- Witness for C6 on the concrete store `c6Db`. -/
theorem export_json_roundtrip_witness :
    linkToJson (rowToLink c6Row) ∈ exportedLinkObjects c6Db ∧
    jsonToLink (linkToJson (rowToLink c6Row)) = some (rowToLink c6Row) ∧
    (rowToLink c6Row).id = c6Row.id ∧
    (rowToLink c6Row).program = c6Row.program ∧
    (rowToLink c6Row).product = c6Row.product ∧
    (rowToLink c6Row).link = c6Row.link ∧
    (rowToLink c6Row).commissionRate = c6Row.commission_rate ∧
    (rowToLink c6Row).category = c6Row.category ∧
    (rowToLink c6Row).tags = c6Row.tags.getD [] ∧
    (rowToLink c6Row).expiry = c6Row.expiry ∧
    (rowToLink c6Row).createdAt = c6Row.created_at ∧
    (rowToLink c6Row).updatedAt = c6Row.updated_at ∧
    (rowToLink c6Row).clicks = c6Row.clicks ∧
    (rowToLink c6Row).conversions = c6Row.conversions ∧
    (rowToLink c6Row).revenue = c6Row.revenue ∧
    (rowToLink c6Row).notes = c6Row.notes ∧
    jsonLookup (linkToJson (rowToLink c6Row)) "tags"
      = some (Json.arr ((c6Row.tags.getD []).map Json.str)) ∧
    (∀ s, jsonLookup (linkToJson (rowToLink c6Row)) "tags" ≠ some (Json.str s)) :=
  @export_json_roundtrip c6Db c6Row (by simp [c6Db])

/-- C10: a link created with the tags field omitted is stored with a NULL
tags column, and every full-record read path — `getAffiliateLink` (used by
`get_stats`) and the `export_links` json output — returns it with tags
equal to the empty array, never null or an absent field. -/
theorem omitted_tags_read_as_empty_array {db db1 : DB} {a : StoreArgs}
    {gid now lid : String}
    (htags : a.tags = none)
    (hstore : storeAffiliateLink db a gid now = .ok (db1, lid)) :
    getAffiliateLink db1 lid = some (rowToLink (newLinkRow a lid now)) ∧
    (rowToLink (newLinkRow a lid now)).tags = [] ∧
    jsonLookup (linkToJson (rowToLink (newLinkRow a lid now))) "tags"
      = some (Json.arr []) ∧
    linkToJson (rowToLink (newLinkRow a lid now)) ∈ exportedLinkObjects db1 := by
  obtain ⟨rfl, hid, -, rfl⟩ := storeAffiliateLink_ok hstore
  have hnone : db.links.find? (fun r => r.id = lid) = none := by
    apply List.find?_eq_none.2
    intro x hx
    have := (List.any_eq_false).1 hid x hx
    simpa using this
  have hfind :
      findLink { db with links := db.links ++ [newLinkRow a lid now] } lid
        = some (newLinkRow a lid now) := by
    unfold findLink
    simp only [List.find?_append, hnone, Option.none_or]
    simp [newLinkRow, List.find?]
  have hmem : newLinkRow a lid now ∈
      ({ db with links := db.links ++ [newLinkRow a lid now] } : DB).links := by
    simp
  refine ⟨?_, ?_, ?_, List.mem_map_of_mem _ (mem_getAllAffiliateLinks hmem)⟩
  · unfold getAffiliateLink
    rw [hfind]
    rfl
  · simp [rowToLink, newLinkRow, htags]
  · have : (rowToLink (newLinkRow a lid now)).tags = [] := by
      simp [rowToLink, newLinkRow, htags]
    simp [jsonLookup, linkToJson, List.find?, this]

/-- Witness for C10: create `L1` with no tags on an empty store; both read
paths return the empty tag array. -/
theorem omitted_tags_read_as_empty_array_witness :
    getAffiliateLink dbOneLink "L1"
      = some (rowToLink (newLinkRow c4Args "L1" "2024-01-01T00:00:00Z")) ∧
    (rowToLink (newLinkRow c4Args "L1" "2024-01-01T00:00:00Z")).tags = [] ∧
    jsonLookup
      (linkToJson (rowToLink (newLinkRow c4Args "L1" "2024-01-01T00:00:00Z")))
      "tags" = some (Json.arr []) ∧
    linkToJson (rowToLink (newLinkRow c4Args "L1" "2024-01-01T00:00:00Z"))
      ∈ exportedLinkObjects dbOneLink :=
  @omitted_tags_read_as_empty_array ⟨[], [], []⟩ dbOneLink c4Args
    "L1" "2024-01-01T00:00:00Z" "L1" rfl rfl

/-- C7 (counterexample): the claim says the result is truncated to the
supplied limit.  With a supplied limit of 0 the code computes
`args.limit || 50`, treats 0 as absent, and applies the default 50: on a
one-link store the query returns one link, not zero. -/
theorem getAffiliateLinks_limit_zero_cx :
    ({ limit := some 0 : LinksFilter }).limit = some 0 ∧
    (getAffiliateLinksQuery dbOneLink { limit := some 0 }).length = 1 ∧
    ¬ ((getAffiliateLinksQuery dbOneLink { limit := some 0 }).length ≤ 0) := by
  refine ⟨rfl, rfl, ?_⟩
  intro hle
  have h1 : (getAffiliateLinksQuery dbOneLink { limit := some 0 }).length = 1 := rfl
  omega

/-- The code's SQL predicate agrees with the spec's filter conjunction as
long as no filter is supplied as the empty string (an empty string is
falsy in JavaScript, so the code would add no WHERE clause for it). -/
theorem sqlPred_iff_matchesFilter {f : LinksFilter} {r : LinkRow}
    (hc : f.category ≠ some "") (hp : f.program ≠ some "") :
    sqlPred f r = true ↔ matchesFilter f r := by
  unfold sqlPred matchesFilter
  rcases hcat : f.category with _ | c <;>
    rcases hprog : f.program with _ | p <;>
    rcases hmin : f.minCommission with _ | m <;>
    rcases hmax : f.maxCommission with _ | M <;>
    rw [hcat] at hc <;> rw [hprog] at hp <;>
    simp_all [Option.some.injEq] <;> tauto

/-- C7 (amended): `get_affiliate_links` returns exactly the stored links
satisfying the conjunction of the supplied filters (exact match on
category and program when supplied non-empty, inclusive commissionRate
bounds), ordered by commissionRate descending, truncated to
`args.limit || 50` — the supplied limit when nonzero, else the default
50 — and an empty sequence (not an error) when nothing matches. -/
theorem getAffiliateLinks_filter_spec {db : DB} {f : LinksFilter}
    (hc : f.category ≠ some "") (hp : f.program ≠ some "") :
    (∀ r ∈ getAffiliateLinksQuery db f, r ∈ db.links ∧ matchesFilter f r) ∧
    List.Sorted commissionGe (getAffiliateLinksQuery db f) ∧
    (getAffiliateLinksQuery db f).length =
      min (limitVal f) ((db.links.filter (sqlPred f)).length) ∧
    (∀ r ∈ db.links, matchesFilter f r →
      (db.links.filter (sqlPred f)).length ≤ limitVal f →
      r ∈ getAffiliateLinksQuery db f) ∧
    ((∀ r ∈ db.links, ¬ matchesFilter f r) → getAffiliateLinksQuery db f = []) := by
  have hperm := List.perm_insertionSort commissionGe (db.links.filter (sqlPred f))
  refine ⟨?_, ?_, ?_, ?_, ?_⟩
  · intro r hr
    have hsort : r ∈ List.insertionSort commissionGe (db.links.filter (sqlPred f)) :=
      List.mem_of_mem_take hr
    have hfilt : r ∈ db.links.filter (sqlPred f) := hperm.mem_iff.1 hsort
    obtain ⟨hmem, hpred⟩ := List.mem_filter.1 hfilt
    exact ⟨hmem, (sqlPred_iff_matchesFilter hc hp).1 hpred⟩
  · exact (List.sorted_insertionSort commissionGe _).sublist
      (List.take_sublist _ _)
  · rw [getAffiliateLinksQuery, List.length_take, hperm.length_eq]
  · intro r hr hmatch hlen
    have hfilt : r ∈ db.links.filter (sqlPred f) :=
      List.mem_filter.2 ⟨hr, (sqlPred_iff_matchesFilter hc hp).2 hmatch⟩
    have hsort : r ∈ List.insertionSort commissionGe (db.links.filter (sqlPred f)) :=
      hperm.mem_iff.2 hfilt
    rw [getAffiliateLinksQuery,
      List.take_of_length_le (by rw [hperm.length_eq]; exact hlen)]
    exact hsort
  · intro hno
    have hnil : db.links.filter (sqlPred f) = [] := by
      apply List.filter_eq_nil_iff.2
      intro x hx hpred
      exact hno x hx ((sqlPred_iff_matchesFilter hc hp).1 hpred)
    rw [getAffiliateLinksQuery, hnil]
    simp

/-- A two-link store for the C7 witness. -/
def c7Db : DB :=
  { links := [mkRow "L1" "https://a.example/1" 5 "tech",
              mkRow "L2" "https://a.example/2" 9 "home"]
    clicks := [], conversions := [] }

/-- The C7 witness filter: category "tech" and minCommission 5. -/
def c7F : LinksFilter := { category := some "tech", minCommission := some 5 }

/-- Witness for C7's amended theorem on the concrete store `c7Db`. -/
theorem getAffiliateLinks_filter_spec_witness :
    (∀ r ∈ getAffiliateLinksQuery c7Db c7F, r ∈ c7Db.links ∧ matchesFilter c7F r) ∧
    List.Sorted commissionGe (getAffiliateLinksQuery c7Db c7F) ∧
    (getAffiliateLinksQuery c7Db c7F).length =
      min (limitVal c7F) ((c7Db.links.filter (sqlPred c7F)).length) ∧
    (∀ r ∈ c7Db.links, matchesFilter c7F r →
      (c7Db.links.filter (sqlPred c7F)).length ≤ limitVal c7F →
      r ∈ getAffiliateLinksQuery c7Db c7F) ∧
    ((∀ r ∈ c7Db.links, ¬ matchesFilter c7F r) →
      getAffiliateLinksQuery c7Db c7F = []) :=
  @getAffiliateLinks_filter_spec c7Db c7F (by decide) (by decide)
